import Mathlib

/-!
Shallow embedding of the ivoox podcast scraper and its cache-first job
orchestration (scraper.py, tasks.py, views.py), with theorems checking the
specification's claims against it.

HTML documents are abstracted to the node lists the xpath selectors return;
fetching is an oracle `String → Option Doc` (`none` models a fetch failure,
mirroring `_fetch_and_parse` returning `None`).  The unbounded `while True`
loops are given explicit fuel; theorems supply enough fuel for the runs they
describe.  Uncaught Python exceptions are modelled as `none`/`failed` results.
-/

/-- Python `str.lower()` restricted to the ASCII letters Lean's
`Char.toLower` handles (all inputs of interest are ASCII). -/
def pyLower (s : String) : String :=
  String.mk (s.data.map Char.toLower)

/-- Python `str.replace(' ', '_')`: a single-character pattern, hence a map. -/
def pyReplaceSpaceUnderscore (s : String) : String :=
  String.mk (s.data.map fun c => if c = ' ' then '_' else c)

/-- Python `str.strip()`: drop whitespace from both ends. -/
def pyStrip (s : String) : String :=
  String.mk (((s.data.dropWhile Char.isWhitespace).reverse.dropWhile
    Char.isWhitespace).reverse)

/-- Python `pat in s` on character sequences. -/
def hasSubSeq (pat : List Char) : List Char → Bool
  | [] => pat.isEmpty
  | c :: cs => pat.isPrefixOf (c :: cs) || hasSubSeq pat cs

/-- Python `pat in s` for strings. -/
def strContains (s pat : String) : Bool :=
  hasSubSeq pat.data s.data

/-- Python `s.startswith(pat)`. -/
def strStartsWith (s pat : String) : Bool :=
  pat.data.isPrefixOf s.data

/-- Maximal leading digit run of a character list, with the remainder
(the deterministic core of a greedy regex `\d+`). -/
def takeDigitRun : List Char → List Char × List Char
  | [] => ([], [])
  | c :: cs =>
    if c.isDigit then
      let (d, r) := takeDigitRun cs
      (c :: d, r)
    else ([], c :: cs)

/-- Match `_rf_(\d+_\d+)\.html` anchored at the start of the list, returning
the captured group.  Because `\d+` cannot cross the `_` and `.` separators,
the greedy match needs no backtracking. -/
def matchRefAt : List Char → Option (List Char)
  | '_' :: 'r' :: 'f' :: '_' :: rest =>
    let (d1, r1) := takeDigitRun rest
    if d1.isEmpty then none
    else
      match r1 with
      | '_' :: r2 =>
        let (d2, r3) := takeDigitRun r2
        if d2.isEmpty then none
        else if ['.', 'h', 't', 'm', 'l'].isPrefixOf r3 then
          some (d1 ++ '_' :: d2)
        else none
      | _ => none
  | _ => none

/-- `re.search` for the pattern of `matchRefAt`: try each start position,
leftmost first. -/
def searchRef : List Char → Option (List Char)
  | [] => none
  | c :: cs =>
    match matchRefAt (c :: cs) with
    | some g => some g
    | none => searchRef cs

/-- `IvooxAPI.construir_url_audio` (scraper.py lines 209-237): derive the
direct listen URL from the `_rf_<digits>_<digits>.html` reference, or return
the sentinel error string when the pattern is absent. -/
def construir_url_audio (url_original : String) : String :=
  match searchRef url_original.data with
  | some g => "https://www.ivoox.com/listen_mn_" ++ String.mk g ++ ".mp3"
  | none => "Error: No se pudo extraer el número de referencia de la URL proporcionada."

/-- Lazy capture of `(.*?)` terminated by the literal `_1.html`: the shortest
chunk before the earliest occurrence of the terminator ; `none` when the
terminator never occurs. -/
def captureUptoOneHtml : List Char → Option (List Char)
  | [] => none
  | c :: cs =>
    if ['_', '1', '.', 'h', 't', 'm', 'l'].isPrefixOf (c :: cs) then some []
    else
      match captureUptoOneHtml cs with
      | some g => some (c :: g)
      | none => none

/-- `re.search` of `PODCAST_ID_PATTERN = _sq_(.*?)_1\.html` (scraper.py
line 61): leftmost start position where `_sq_` is followed by a later
`_1.html`, with the lazy capture in between. -/
def sqIdSearch : List Char → Option (List Char)
  | [] => none
  | c :: cs =>
    if ['_', 's', 'q', '_'].isPrefixOf (c :: cs) then
      match captureUptoOneHtml ((c :: cs).drop 4) with
      | some g => some g
      | none => sqIdSearch cs
    else sqIdSearch cs

/-- An `<a>` element abstracted to the attributes the scraper reads. -/
structure AnchorEl where
  href : Option String := none
  title : Option String := none
deriving DecidableEq

/-- An `<img>` element abstracted to its `src` attribute. -/
structure ImgEl where
  src : Option String := none
deriving DecidableEq

/-- A search-result card: the node matched by
`//div[@class='front modulo-view modulo-type-programa']`, abstracted to its
`.//a` and `.//img` descendant lists. -/
structure PodcastNode where
  anchors : List AnchorEl := []
  imgs : List ImgEl := []
deriving DecidableEq

/-- The `Podcast` dataclass (scraper.py lines 14-29). -/
structure Podcast where
  id : String
  name : String
  ivoox_url : String
  thumbnail : String
deriving DecidableEq

/-- One iteration of the loop body of `_parse_podcast_nodes` (scraper.py
lines 254-276): `none` models both the caught `IndexError`s and the explicit
`continue` branches. -/
def parsePodcastNode (node : PodcastNode) : Option Podcast :=
  match node.anchors.head? with
  | none => none
  | some link =>
    let url := link.href.getD ("")
    if !strContains url ("_sq_") || strStartsWith url ("_sq_") then none
    else
      match sqIdSearch url.data with
      | none => none
      | some g =>
        match node.imgs.head? with
        | none => none
        | some img =>
          some { id := String.mk g, name := link.title.getD (""),
                 ivoox_url := url, thumbnail := img.src.getD ("") }

/-- `IvooxAPI._parse_podcast_nodes` (scraper.py lines 249-278). -/
def parsePodcastNodes (nodes : List PodcastNode) : List Podcast :=
  nodes.filterMap parsePodcastNode

/-- `IvooxAPI.BASE_URL` (scraper.py line 59). -/
def BASE_URL : String := "http://www.ivoox.com"

/-- The search page URL template of `search_podcast` (scraper.py line 92). -/
def searchUrl (query : String) (page : Nat) : String :=
  BASE_URL ++ "/" ++ query ++ "_sw_1_" ++ toString page ++ ".html"

/-- The `while True` loop of `IvooxAPI.search_podcast` (scraper.py lines
91-106), instrumented with the list of fetched URLs.  Stops on fetch failure
or an empty parse; otherwise accumulates and moves to the next page. -/
def searchPodcastLoop (fetch : String → Option (List PodcastNode))
    (query : String) : Nat → Nat → List String × List Podcast
  | 0, _ => ([], [])
  | fuel + 1, current =>
    let url := searchUrl query current
    match fetch url with
    | none => ([url], [])
    | some doc =>
      let podcasts := parsePodcastNodes doc
      if podcasts.isEmpty then ([url], [])
      else
        let rest := searchPodcastLoop fetch query fuel (current + 1)
        (url :: rest.1, podcasts ++ rest.2)

/-- `IvooxAPI.search_podcast` (scraper.py lines 72-107): the loop starts at
the explicit page when given, else at page 1.  Note the loop body never
consults `page` again. -/
def search_podcast (fetch : String → Option (List PodcastNode))
    (query : String) (page : Option Nat) (fuel : Nat) :
    List String × List Podcast :=
  searchPodcastLoop fetch query fuel (page.getD 1)

/-- The `p.title-wrapper` node of an episode card, abstracted to its `.//a`
anchors and the `data-content` attributes of its `.//button` children. -/
structure TitleWrapperEl where
  anchors : List AnchorEl := []
  buttons : List (Option String) := []
deriving DecidableEq

/-- An episode card: the node matched by
`//div[@class='front modulo-view modulo-type-episodio']`, abstracted to the
descendant lists its fixed sub-selectors return (text contents are carried as
the raw strings before `.strip()`). -/
structure EpisodeNode where
  titleWrappers : List TitleWrapperEl := []
  headerImgs : List ImgEl := []
  timeTexts : List String := []
  likeTexts : List String := []
  commentTexts : List String := []
deriving DecidableEq

/-- The `Episode` dataclass (scraper.py lines 32-53). -/
structure Episode where
  name : String
  description : String
  url : String
  duration : String
  thumbnail : String
  likes : String
  comments : String
deriving DecidableEq

/-- One iteration of the loop body of `_parse_episode_nodes` (scraper.py
lines 285-308): any `[0]` on an empty selector result raises `IndexError`,
which the surrounding `try` turns into skipping this node (`none`). -/
def parseEpisodeNode (node : EpisodeNode) : Option Episode :=
  match node.titleWrappers.head? with
  | none => none
  | some tw =>
    match tw.anchors.head? with
    | none => none
    | some link =>
      match tw.buttons.head?, node.headerImgs.head?, node.timeTexts.head?,
          node.likeTexts.head?, node.commentTexts.head? with
      | some btn, some img, some t, some l, some c =>
        some { name := link.title.getD (""), url := link.href.getD (""),
               description := btn.getD (""), thumbnail := img.src.getD (""),
               duration := pyStrip t, likes := pyStrip l,
               comments := pyStrip c }
      | _, _, _, _, _ => none

/-- `IvooxAPI._parse_episode_nodes` (scraper.py lines 280-310). -/
def parseEpisodeNodes (nodes : List EpisodeNode) : List Episode :=
  nodes.filterMap parseEpisodeNode

/-- An episode-listing page, abstracted to the text contents of
`//*[@id='list_title_new']`, its episode cards, and the `href` attributes of
the `//a[@class='page']//a` paginator links. -/
structure EpisodeDoc where
  titleTexts : List String := []
  nodes : List EpisodeNode := []
  pageLinks : List (Option String) := []
deriving DecidableEq

/-- `IvooxAPI._extract_podcast_name` (scraper.py lines 312-315). -/
def extract_podcast_name (d : EpisodeDoc) : String :=
  match d.titleTexts.head? with
  | none => ""
  | some t => pyStrip t

/-- `IvooxAPI._has_next_page` (scraper.py lines 363-366): an empty link list
is falsy; otherwise the last link's `href` must differ from `"#"` (a missing
attribute reads as `None`, which also differs from `"#"`). -/
def has_next_page (d : EpisodeDoc) : Bool :=
  match d.pageLinks.getLast? with
  | none => false
  | some h => h != some ("#")

/-- The episode page URL template of `search_episodes` (scraper.py line 129). -/
def episodeUrl (podcast_id : String) (page : Nat) : String :=
  BASE_URL ++ "/test_sq_" ++ podcast_id ++ "_" ++ toString page ++ ".html"

/-- The `while True` loop of `IvooxAPI.search_episodes` (scraper.py lines
128-151), instrumented with the fetched URLs.  The name is (re)computed only
while still empty; an empty name on page 1 aborts; an explicit page or a
missing next-page marker stops after the current page. -/
def searchEpisodesLoop (fetch : String → Option EpisodeDoc)
    (podcast_id : String) (explicitPage : Bool) :
    Nat → Nat → String → List Episode → List String × String × List Episode
  | 0, _, name, eps => ([], name, eps)
  | fuel + 1, current, name, eps =>
    let url := episodeUrl podcast_id current
    match fetch url with
    | none => ([url], name, eps)
    | some d =>
      let name1 := if name = "" then extract_podcast_name d else name
      if name = "" ∧ name1 = "" ∧ current = 1 then ([url], name1, eps)
      else
        let episodes := parseEpisodeNodes d.nodes
        if episodes.isEmpty then ([url], name1, eps)
        else
          let eps1 := eps ++ episodes
          if explicitPage || !has_next_page d then ([url], name1, eps1)
          else
            let rest := searchEpisodesLoop fetch podcast_id explicitPage fuel
              (current + 1) name1 eps1
            (url :: rest.1, rest.2)

/-- `IvooxAPI.search_episodes` (scraper.py lines 109-153), returning the
fetched URLs together with the `{"name": ..., "episodes": ...}` result. -/
def search_episodes (fetch : String → Option EpisodeDoc) (podcast_id : String)
    (page : Option Nat) (fuel : Nat) :
    List String × String × List Episode :=
  searchEpisodesLoop fetch podcast_id page.isSome fuel (page.getD 1) "" []

/-- An `<a>` link matched by the `mp3_rf_` selector of `get_mp3_links`,
abstracted to its attributes and visible text. -/
structure Mp3Link where
  href : Option String := none
  title : Option String := none
  text : String := ""
deriving DecidableEq

/-- An episode-listing page as `get_mp3_links` sees it: the matched episode
links and the matched thumbnail images, two parallel lists. -/
structure Mp3Page where
  links : List Mp3Link := []
  thumbs : List ImgEl := []
deriving DecidableEq

/-- One record appended by `get_mp3_links` (scraper.py lines 194-200). -/
structure Mp3Rec where
  title : String
  mp3_url : String
  thumbnail : String
deriving DecidableEq

/-- `link.get("title") or link.text_content().strip()`: the attribute when
present and non-empty (Python truthiness), else the stripped text. -/
def mp3LinkTitle (l : Mp3Link) : String :=
  match l.title with
  | some t => if t = "" then pyStrip l.text else t
  | none => pyStrip l.text

/-- The record built for one link/thumbnail pair (scraper.py lines 188-200). -/
def mp3RecOf (l : Mp3Link) (th : ImgEl) : Mp3Rec :=
  { title := mp3LinkTitle l,
    mp3_url := construir_url_audio (BASE_URL ++ l.href.getD ("")),
    thumbnail := th.src.getD ("") }

/-- The records of one page when every link has a matching thumbnail. -/
def mp3PageRecs (p : Mp3Page) : List Mp3Rec :=
  List.zipWith mp3RecOf p.links p.thumbs

/-- The per-page extraction loop of `get_mp3_links` (scraper.py lines
188-200): `episode_thumbnails[i]` raises an uncaught `IndexError` as soon as
a link has no thumbnail at its index, aborting the whole call (`none`). -/
def extractMp3Page (p : Mp3Page) : Option (List Mp3Rec) :=
  if p.thumbs.length < p.links.length then none
  else some (mp3PageRecs p)

/-- `re.sub(r"_\d+\.html$", "", podcast_url)` (scraper.py line 164): strip a
trailing `_<digits>.html` page suffix when present. -/
def stripPageSuffix (s : String) : String :=
  match s.data.reverse with
  | 'l' :: 'm' :: 't' :: 'h' :: '.' :: rest =>
    let (d, r) := takeDigitRun rest
    if d.isEmpty then s
    else
      match r with
      | '_' :: r2 => String.mk r2.reverse
      | _ => s
  | _ => s

/-- The page URL template of `get_mp3_links` (scraper.py line 169). -/
def mp3PageUrl (base : String) (page : Nat) : String :=
  base ++ "_" ++ toString page ++ ".html"

/-- The `while True` loop of `IvooxAPI.get_mp3_links` (scraper.py lines
168-204), instrumented with the fetched URLs.  A `none` second component
models the uncaught `IndexError` escaping the whole call; the loop stops on
fetch failure or when no episode links are found, and otherwise continues to
the next page (it never consults the explicit `page` argument). -/
def getMp3LinksLoop (fetch : String → Option Mp3Page) (base : String) :
    Nat → Nat → List Mp3Rec → List String × Option (List Mp3Rec)
  | 0, _, acc => ([], some acc)
  | fuel + 1, current, acc =>
    let url := mp3PageUrl base current
    match fetch url with
    | none => ([url], some acc)
    | some p =>
      if p.links.isEmpty then ([url], some acc)
      else
        match extractMp3Page p with
        | none => ([url], none)
        | some recs =>
          let rest := getMp3LinksLoop fetch base fuel (current + 1) (acc ++ recs)
          (url :: rest.1, rest.2)

/-- `IvooxAPI.get_mp3_links` (scraper.py lines 155-207). -/
def get_mp3_links (fetch : String → Option Mp3Page) (podcast_url : String)
    (page : Option Nat) (fuel : Nat) :
    List String × Option (List Mp3Rec) :=
  getMp3LinksLoop fetch (stripPageSuffix podcast_url) fuel (page.getD 1) []

/-- Terminal state of a Celery job as the result backend reports it. -/
inductive JobOutcome
  | succeeded (result : List Mp3Rec)
  | failed
deriving DecidableEq

/-- Modelled from the spec: `CACHE_TTL_24H` comes from `constants.py`, which
is absent from the sources; §4.5 gives the long TTL class as 24 hours. -/
def CACHE_TTL_24H : Nat := 24 * 60 * 60

/-- Modelled from the spec: `CACHE_TTL_1M` comes from `constants.py`, which
is absent from the sources; §4.5 gives the short TTL class as about a month. -/
def CACHE_TTL_1M : Nat := 30 * 24 * 60 * 60

/-- `scrape_podcast_episodes_task` (tasks.py lines 16-45): run
`get_mp3_links` on the raw URL; an escaping exception marks the job failed,
otherwise the result is cached under `episodes_view_<url>` for 24 hours and
returned.  The second component lists the cache writes performed. -/
def scrape_podcast_episodes_task (fetch : String → Option Mp3Page)
    (podcast_url : String) (fuel : Nat) :
    JobOutcome × List (String × List Mp3Rec × Nat) :=
  match (get_mp3_links fetch podcast_url none fuel).2 with
  | none => (.failed, [])
  | some r =>
    (.succeeded r, [("episodes_view_" ++ podcast_url, r, CACHE_TTL_24H)])

/-- The cache key computed in `SearchView.get_context_data` (views.py
line 35): the query lower-cased with spaces replaced by underscores. -/
def search_view_cache_key (query : String) : String :=
  "search_view_" ++ pyReplaceSpaceUnderscore (pyLower query)

/-- The task-registry key computed in `SearchView.get_context_data`
(views.py line 36): built from the raw query, with no normalization. -/
def search_task_key (query : String) : String :=
  "task_id_for_search_" ++ query

/-- The cache key computed in `search_podcast_task` (tasks.py line 59). -/
def search_task_cache_key (query : String) : String :=
  "search_view_" ++ pyReplaceSpaceUnderscore (pyLower query)

/-- The cache key computed in `EpisodeDataView.get` (views.py line 157) and
`scrape_podcast_episodes_task` (tasks.py line 26). -/
def episode_view_cache_key (podcast_url : String) : String :=
  "episodes_view_" ++ podcast_url

/-- `search_podcast_task` (tasks.py lines 48-77): scrape, cache the result
under the normalized search key for the short TTL, and return it.  The
second component lists the cache writes performed. -/
def search_podcast_task (fetch : String → Option (List PodcastNode))
    (query : String) (fuel : Nat) :
    List Podcast × List (String × Nat) :=
  let podcasts := (search_podcast fetch query none fuel).2
  (podcasts, [(search_task_cache_key query, CACHE_TTL_1M)])

/-- A value stored in the Django cache: search results, mp3-link results,
or a registered Celery task id. -/
inductive CVal
  | pods (l : List Podcast)
  | mp3s (l : List Mp3Rec)
  | tid (s : String)
deriving DecidableEq

/-- Python truthiness of a cached value (`if cached_data:` treats an empty
list or empty string as a miss). -/
def cvTruthy : CVal → Bool
  | .pods l => !l.isEmpty
  | .mp3s l => !l.isEmpty
  | .tid s => s != ""

/-- Truthiness of `cache.get(...)`: `None` and falsy values both fail the
`if`. -/
def truthyOpt : Option CVal → Bool
  | none => false
  | some v => cvTruthy v

/-- The external collaborators a view consults: the Django cache and the
Celery result backend (`AsyncResult(id).state` / `.result`). -/
structure Backend where
  cache : String → Option CVal
  taskState : String → String
  taskResult : String → CVal

/-- A `.delay(...)` call performed by a view. -/
inductive Sched
  | searchTask (query : String)
  | episodesTask (url : String)
deriving DecidableEq

/-- Side effects a view performs: cache reads, `cache.set` writes
(key, value, timeout), `cache.delete`s, and scheduled tasks, in order. -/
structure Effects where
  reads : List String := []
  sets : List (String × CVal × Nat) := []
  dels : List String := []
  scheduled : List Sched := []
deriving DecidableEq

/-- The template context assembled by `SearchView.get_context_data`,
restricted to the fields the orchestration logic sets. -/
structure SearchCtx where
  query : String := ""
  podcasts : Option CVal := none
  task_id : Option String := none
  error_message : Option String := none
deriving DecidableEq

/-- Step 4 of `SearchView.get_context_data` (views.py lines 77-85): launch a
new task, register its id under the task key for 600 seconds, and report it
to the template. -/
def searchViewLaunch (query freshId cache_key task_cache_key : String) :
    SearchCtx × Effects :=
  ({ query := query, task_id := some freshId },
   { reads := [cache_key, task_cache_key],
     sets := [(task_cache_key, .tid freshId, 600)],
     scheduled := [.searchTask query] })

/-- `SearchView.get_context_data` (views.py lines 24-85).  `freshId` is the
id Celery would assign to a newly scheduled task.  The favorites lookup is
out of scope and omitted. -/
def searchView_get_context_data (b : Backend) (rawQuery freshId : String) :
    SearchCtx × Effects :=
  let query := pyStrip rawQuery
  if query = "" then ({ query := query }, {})
  else
    let cache_key := search_view_cache_key query
    let task_cache_key := search_task_key query
    let cached := b.cache cache_key
    if truthyOpt cached then
      ({ query := query, podcasts := cached }, { reads := [cache_key] })
    else
      match b.cache task_cache_key with
      | some (.tid task_id) =>
        if task_id = "" then
          searchViewLaunch query freshId cache_key task_cache_key
        else
          let st := b.taskState task_id
          if st = "SUCCESS" then
            ({ query := query, podcasts := some (b.taskResult task_id) },
             { reads := [cache_key, task_cache_key], dels := [task_cache_key] })
          else if st = "PENDING" ∨ st = "PROCESSING" ∨ st = "STARTED" then
            ({ query := query, task_id := some task_id },
             { reads := [cache_key, task_cache_key] })
          else if st = "FAILURE" then
            ({ query := query,
               error_message := some ("La tarea de búsqueda falló en el servidor.") },
             { reads := [cache_key, task_cache_key], dels := [task_cache_key] })
          else
            searchViewLaunch query freshId cache_key task_cache_key
      | _ => searchViewLaunch query freshId cache_key task_cache_key

/-- Body of a `JsonResponse`. -/
inductive RespBody
  | err (message : String)
  | success (data : CVal)
  | processing (task_id : String)
  | processingState (message : String)
deriving DecidableEq

/-- A `JsonResponse`, with its HTTP status (default 200). -/
structure Resp where
  status : Nat := 200
  body : RespBody
deriving DecidableEq

/-- `SearchDataView.get` (views.py lines 94-119): a missing or empty query
is a 400; a truthy cache hit is returned; otherwise a search task is
scheduled and its id returned — with no registry check or registration. -/
def searchDataView_get (b : Backend) (query : Option String)
    (freshId : String) : Resp × Effects :=
  match query with
  | none => ({ status := 400, body := .err ("No se proporcionó 'query'") }, {})
  | some q =>
    if q = "" then
      ({ status := 400, body := .err ("No se proporcionó 'query'") }, {})
    else
      let cache_key := search_view_cache_key q
      match b.cache cache_key with
      | some v =>
        if cvTruthy v then ({ body := .success v }, { reads := [cache_key] })
        else
          ({ body := .processing freshId },
           { reads := [cache_key], scheduled := [.searchTask q] })
      | none =>
        ({ body := .processing freshId },
         { reads := [cache_key], scheduled := [.searchTask q] })

/-- `EpisodeDataView.get` (views.py lines 148-178): a missing or empty URL
is a 400; a truthy cache hit is returned; otherwise a scraping task is
scheduled on every call — with no registry check or registration. -/
def episodeDataView_get (b : Backend) (url : Option String)
    (freshId : String) : Resp × Effects :=
  match url with
  | none => ({ status := 400, body := .err ("No se proporcionó URL") }, {})
  | some u =>
    if u = "" then
      ({ status := 400, body := .err ("No se proporcionó URL") }, {})
    else
      let cache_key := episode_view_cache_key u
      match b.cache cache_key with
      | some v =>
        if cvTruthy v then ({ body := .success v }, { reads := [cache_key] })
        else
          ({ body := .processing freshId },
           { reads := [cache_key], scheduled := [.episodesTask u] })
      | none =>
        ({ body := .processing freshId },
         { reads := [cache_key], scheduled := [.episodesTask u] })

/-- `TaskStatusView.get` (views.py lines 188-222): read-only polling of the
Celery backend; it touches neither the Django cache nor the task queue. -/
def taskStatusView_get (b : Backend) (task_id : Option String) :
    Resp × Effects :=
  match task_id with
  | none => ({ status := 400, body := .err ("No se proporcionó task_id") }, {})
  | some t =>
    if t = "" then
      ({ status := 400, body := .err ("No se proporcionó task_id") }, {})
    else
      let st := b.taskState t
      if st = "SUCCESS" then ({ body := .success (b.taskResult t) }, {})
      else if st = "FAILURE" then
        ({ body := .err ("La tarea de scraping ha fallado.") }, {})
      else ({ body := .processingState ("Estado de la tarea: " ++ st) }, {})

/-- A well-formed search-result card with id `X<k>`. -/
def fixtureNode (tag : String) : PodcastNode :=
  { anchors := [{ href := some ("p_sq_" ++ tag ++ "_1.html"),
                  title := some tag }],
    imgs := [{ src := some ("img-" ++ tag) }] }

/-- The podcast `fixtureNode tag` parses to. -/
def fixturePodcast (tag : String) : Podcast :=
  { id := tag, name := tag, ivoox_url := "p_sq_" ++ tag ++ "_1.html",
    thumbnail := "img-" ++ tag }

/-- Fetch oracle for the explicit-page scenario of claim C2: page 2 has one
podcast, page 3 has one podcast, every other page is empty. -/
def c2fetch : String → Option (List PodcastNode) := fun u =>
  if u = searchUrl ("q") 2 then some [fixtureNode ("A")]
  else if u = searchUrl ("q") 3 then some [fixtureNode ("B")]
  else some []

/-- Fetch oracle for the no-nodes scenario of claim C8: pages of 3, 2 and 0
podcast nodes. -/
def c8fetch : String → Option (List PodcastNode) := fun u =>
  if u = searchUrl ("q") 1 then
    some [fixtureNode ("X1"), fixtureNode ("X2"), fixtureNode ("X3")]
  else if u = searchUrl ("q") 2 then
    some [fixtureNode ("X4"), fixtureNode ("X5")]
  else some []

/-- Backend with an empty cache and every task pending (no job has reached a
terminal state and nothing has been written to the cache). -/
def pendingBackend : Backend :=
  { cache := fun _ => none,
    taskState := fun _ => "PENDING",
    taskResult := fun _ => .pods [] }

/-- Backend for the witness of the amended claim C1: the task registry holds
id `t1` for query `q`, the search cache is empty, and task `t1` is pending. -/
def c1backend : Backend :=
  { cache := fun k => if k = search_task_key ("q") then some (.tid ("t1")) else none,
    taskState := fun _ => "PENDING",
    taskResult := fun _ => .pods [] }

/-- An episode-listing document with no title node (used for claim C7). -/
def c7doc : EpisodeDoc := {}

/-- Fetch oracle returning `c7doc` for every URL. -/
def c7fetch : String → Option EpisodeDoc := fun _ => some c7doc

/-- An episode link whose href carries reference number 11_1. -/
def c6link1 : Mp3Link :=
  { href := some ("/a-mp3_rf_11_1.html"), title := some ("E1"), text := "" }

/-- An episode link whose href carries reference number 22_1. -/
def c6link2 : Mp3Link :=
  { href := some ("/b-mp3_rf_22_1.html"), title := some ("E2"), text := "" }

/-- A thumbnail image fixture. -/
def c6thumb : ImgEl := { src := some ("t1") }

/-- A page whose second episode link has no thumbnail at its index. -/
def c6badPage : Mp3Page := { links := [c6link1, c6link2], thumbs := [c6thumb] }

/-- Fetch oracle serving `c6badPage` as page 1 (used to show the whole job
fails when one node lacks its thumbnail). -/
def c6fetch : String → Option Mp3Page := fun u =>
  if u = mp3PageUrl ("p") 1 then some c6badPage else some {}

/-! ### Helper lemmas -/

/-- The records `search_podcast` returns are exactly the per-page parses of
the fetched URLs, concatenated in fetch order. -/
theorem searchPodcastLoop_eq_flatten (fetch : String → Option (List PodcastNode))
    (query : String) :
    ∀ (fuel current : Nat),
      (searchPodcastLoop fetch query fuel current).2 =
        ((searchPodcastLoop fetch query fuel current).1.map fun u =>
          match fetch u with
          | none => []
          | some d => parsePodcastNodes d).flatten := by
  intro fuel
  induction fuel with
  | zero => intro current; rfl
  | succ n ih =>
    intro current
    simp only [searchPodcastLoop]
    cases hf : fetch (searchUrl query current) with
    | none => simp [hf]
    | some doc =>
      by_cases hp : (parsePodcastNodes doc).isEmpty
      · simp [hf, hp, List.isEmpty_iff.mp hp]
      · simp only [hf, hp, Bool.false_eq_true, if_false, List.map_cons,
          List.flatten_cons]
        rw [ih (current + 1)]

/-- Once the accumulated podcast name is non-empty, the episode loop never
changes it. -/
theorem searchEpisodesLoop_name_of_ne (fetch : String → Option EpisodeDoc)
    (podcast_id : String) (explicitPage : Bool) :
    ∀ (fuel current : Nat) (name : String) (eps : List Episode),
      name ≠ "" →
      (searchEpisodesLoop fetch podcast_id explicitPage fuel current name
        eps).2.1 = name := by
  intro fuel
  induction fuel with
  | zero => intro current name eps _; rfl
  | succ n ih =>
    intro current name eps h
    simp only [searchEpisodesLoop]
    cases hf : fetch (episodeUrl podcast_id current) with
    | none => rfl
    | some d =>
      by_cases he : (parseEpisodeNodes d.nodes).isEmpty
      · simp [h, he]
      · by_cases hx : (explicitPage || !has_next_page d) = true
        · simp [h, he, hx]
        · simp [h, he, hx]
          exact ih (current + 1) name (eps ++ parseEpisodeNodes d.nodes) h

/-- Starting with an empty name, the episode loop's returned name is the
extracted title of the first successfully fetched page (or empty when that
fetch fails), provided a start page other than 1 implies an explicit page. -/
theorem searchEpisodesLoop_first_name (fetch : String → Option EpisodeDoc)
    (podcast_id : String) (explicitPage : Bool) (fuel current : Nat)
    (hexp : current ≠ 1 → explicitPage = true) :
    (searchEpisodesLoop fetch podcast_id explicitPage (fuel + 1) current ""
      []).2.1 =
      match fetch (episodeUrl podcast_id current) with
      | none => ""
      | some d => extract_podcast_name d := by
  simp only [searchEpisodesLoop]
  cases hf : fetch (episodeUrl podcast_id current) with
  | none => rfl
  | some d =>
    by_cases hn : extract_podcast_name d = ""
    · by_cases hc : current = 1
      · simp [hn, hc]
      · have hx : explicitPage = true := hexp hc
        by_cases he : (parseEpisodeNodes d.nodes).isEmpty
        · simp [hn, hc, hx, he]
        · simp [hn, hc, hx, he]
    · by_cases he : (parseEpisodeNodes d.nodes).isEmpty
      · simp [hn, he]
      · by_cases hx : (explicitPage || !has_next_page d) = true
        · simp [hn, he, hx]
        · simp [hn, he, hx]
          exact searchEpisodesLoop_name_of_ne fetch podcast_id explicitPage
            fuel (current + 1) (extract_podcast_name d) _ hn

/-- Partial-results lemma for the mp3 loop: when the next `m` pages fetch
successfully with non-empty, fully-thumbnailed link lists and the page after
them fails to fetch, the loop returns the accumulator extended by those `m`
pages' records — never an error. -/
theorem getMp3LinksLoop_partial (fetch : String → Option Mp3Page)
    (base : String) (docs : Nat → Mp3Page) :
    ∀ (m fuel current : Nat) (acc : List Mp3Rec),
      m + 1 ≤ fuel →
      (∀ k, current ≤ k → k < current + m →
        fetch (mp3PageUrl base k) = some (docs k) ∧ (docs k).links ≠ [] ∧
        (docs k).links.length ≤ (docs k).thumbs.length) →
      fetch (mp3PageUrl base (current + m)) = none →
      (getMp3LinksLoop fetch base fuel current acc).2 =
        some (acc ++
          ((List.range' current m).map fun k => mp3PageRecs (docs k)).flatten) := by
  intro m
  induction m with
  | zero =>
    intro fuel current acc hfuel hok hfail
    obtain ⟨f, rfl⟩ : ∃ f, fuel = f + 1 := ⟨fuel - 1, by omega⟩
    have hf0 : fetch (mp3PageUrl base current) = none := by
      simpa using hfail
    simp [getMp3LinksLoop, hf0]
  | succ n ih =>
    intro fuel current acc hfuel hok hfail
    obtain ⟨f, rfl⟩ : ∃ f, fuel = f + 1 := ⟨fuel - 1, by omega⟩
    obtain ⟨hcur, hne, hlen⟩ := hok current le_rfl (by omega)
    have hx : extractMp3Page (docs current) = some (mp3PageRecs (docs current)) := by
      unfold extractMp3Page
      rw [if_neg (by omega)]
    have hrec := ih f (current + 1) (acc ++ mp3PageRecs (docs current))
      (by omega)
      (fun k hk1 hk2 => hok k (by omega) (by omega))
      (by rw [(by omega : current + 1 + n = current + (n + 1))]; exact hfail)
    have hne' : (docs current).links.isEmpty = false := by
      cases hl : (docs current).links with
      | nil => exact absurd hl hne
      | cons a l => rfl
    simp only [getMp3LinksLoop, hcur, hne', Bool.false_eq_true, if_false, hx]
    rw [hrec, List.range'_succ current n 1]
    simp [List.append_assoc]

/-! ### Claim theorems -/

/-- Claim C1, counterexample: with an empty cache and a pending (non-terminal)
first job, two successive episode-data requests for the same URL `u` — the
same JobKey — each schedule a fresh scraping job, so two jobs are scheduled,
not exactly one. -/
theorem c1_counterexample :
    ((episodeDataView_get pendingBackend (some ("u")) ("j1")).2.scheduled ++
        (episodeDataView_get pendingBackend (some ("u")) ("j2")).2.scheduled).length = 2 ∧
    ¬ ((episodeDataView_get pendingBackend (some ("u")) ("j1")).2.scheduled ++
        (episodeDataView_get pendingBackend (some ("u")) ("j2")).2.scheduled).length = 1 := by
  decide

/-- Claim C1, amended: the search page view does attach to a registered
pending task — it reports the existing task id, schedules nothing and writes
nothing — but the episode-data view performs no registry check at all: every
cache-miss request schedules one fresh job, so repeated requests for the same
key schedule one job per request. -/
theorem c1_amended_thm (b : Backend) (rawQuery freshId tid : String)
    (hq : pyStrip rawQuery ≠ "")
    (hmiss : truthyOpt (b.cache (search_view_cache_key (pyStrip rawQuery))) = false)
    (hreg : b.cache (search_task_key (pyStrip rawQuery)) = some (.tid tid))
    (htid : tid ≠ "")
    (hst : b.taskState tid = "PENDING" ∨ b.taskState tid = "PROCESSING" ∨
      b.taskState tid = "STARTED") :
    ((searchView_get_context_data b rawQuery freshId).1.task_id = some tid ∧
      (searchView_get_context_data b rawQuery freshId).2.scheduled = [] ∧
      (searchView_get_context_data b rawQuery freshId).2.sets = []) ∧
    ∀ (b2 : Backend) (url freshId2 : String), url ≠ "" →
      truthyOpt (b2.cache (episode_view_cache_key url)) = false →
      (episodeDataView_get b2 (some url) freshId2).2.scheduled =
        [.episodesTask url] := by
  constructor
  · have hsv : searchView_get_context_data b rawQuery freshId =
        ({ query := pyStrip rawQuery, task_id := some tid },
         { reads := [search_view_cache_key (pyStrip rawQuery),
                     search_task_key (pyStrip rawQuery)] }) := by
      unfold searchView_get_context_data
      rw [if_neg hq]
      simp only [hmiss, Bool.false_eq_true, if_false, hreg]
      rw [if_neg htid]
      rcases hst with h | h | h <;>
        simp [h]
    rw [hsv]
    exact ⟨rfl, rfl, rfl⟩
  · intro b2 url freshId2 hurl hm
    simp only [episodeDataView_get]
    rw [if_neg hurl]
    cases hcv : b2.cache (episode_view_cache_key url) with
    | none => rfl
    | some v =>
      rw [hcv] at hm
      simp only [truthyOpt] at hm
      simp [hm]

/-- Claim C1, witness for the amended theorem at a concrete backend: the
registry holds pending task `t1` for query `q`, and an episode request on an
empty cache schedules exactly one job. -/
theorem c1_amended_witness :
    ((searchView_get_context_data c1backend ("q") ("f")).1.task_id = some ("t1") ∧
      (searchView_get_context_data c1backend ("q") ("f")).2.scheduled = [] ∧
      (searchView_get_context_data c1backend ("q") ("f")).2.sets = []) ∧
    (episodeDataView_get pendingBackend (some ("u")) ("j3")).2.scheduled =
      [.episodesTask ("u")] := by
  have h := c1_amended_thm c1backend ("q") ("f") ("t1") (by decide) (by decide)
    (by decide) (by decide) (Or.inl rfl)
  exact ⟨h.1, h.2 pendingBackend ("u") ("j3") (by decide) (by decide)⟩

/-- Claim C2: evaluating `search_podcast` at explicit page 2 against pages
where page 2 and page 3 each hold one podcast shows the code fetching three
pages (2, 3 and 4) and returning records from pages 2 and 3 — not exactly one
fetched page with only its records, as the claim and the docstring state. -/
theorem c2_eval :
    search_podcast c2fetch ("q") (some 2) 10 =
      ([searchUrl ("q") 2, searchUrl ("q") 3, searchUrl ("q") 4],
       [fixturePodcast ("A"), fixturePodcast ("B")]) ∧
    (search_podcast c2fetch ("q") (some 2) 10).1.length = 3 := by
  decide

/-- Claim C3: the reference pattern maps the documented example URL to the
documented listen URL, but for an input without the `_rf_<digits>_<digits>`
pattern the derivation returns the sentinel error sentence, and the
audio-link extractor emits a record carrying that sentinel in place of a URL
rather than dropping the node. -/
theorem c3_eval :
    construir_url_audio
        ("http://www.ivoox.com/horizonte-t6x08-brutal-agresion-abertzales-a-periodista-audios-mp3_rf_161629863_1.html") =
      "https://www.ivoox.com/listen_mn_161629863_1.mp3" ∧
    construir_url_audio ("http://www.ivoox.com/podcast-foo-mp3_rf_nodigits.html") =
      "Error: No se pudo extraer el número de referencia de la URL proporcionada." ∧
    extractMp3Page
        { links := [{ href := some ("/podcast-foo-mp3_rf_nodigits.html"),
                      title := some ("Foo"), text := "" }],
          thumbs := [{ src := some ("thumb.jpg") }] } =
      some [{ title := "Foo",
              mp3_url := "Error: No se pudo extraer el número de referencia de la URL proporcionada.",
              thumbnail := "thumb.jpg" }] := by
  refine ⟨by decide, by decide, by decide⟩

/-- Claim C4, counterexample: when page 1 itself fails to fetch, the scraping
job still ends `succeeded` with an empty result (and caches it), not
`failed` as the claim states. -/
theorem c4_counterexample :
    scrape_podcast_episodes_task (fun _ => none) ("x.html") 5 =
      (JobOutcome.succeeded [], [("episodes_view_x.html", [], CACHE_TTL_24H)]) ∧
    (scrape_podcast_episodes_task (fun _ => none) ("x.html") 5).1 ≠
      JobOutcome.failed := by
  decide

/-- Claim C4, amended: a fetch failure on page `n` after well-formed pages
`1..n-1` makes the job succeed with exactly the records accumulated from
pages `1..n-1` — including `n = 1`, where the job succeeds with empty data
rather than failing. -/
theorem c4_amended_thm (fetch : String → Option Mp3Page) (podcast_url : String)
    (docs : Nat → Mp3Page) (n fuel : Nat)
    (hn : 1 ≤ n) (hfuel : n ≤ fuel)
    (hok : ∀ k, 1 ≤ k → k < n →
      fetch (mp3PageUrl (stripPageSuffix podcast_url) k) = some (docs k) ∧
      (docs k).links ≠ [] ∧
      (docs k).links.length ≤ (docs k).thumbs.length)
    (hfail : fetch (mp3PageUrl (stripPageSuffix podcast_url) n) = none) :
    scrape_podcast_episodes_task fetch podcast_url fuel =
      (JobOutcome.succeeded
        (((List.range' 1 (n - 1)).map fun k => mp3PageRecs (docs k)).flatten),
       [("episodes_view_" ++ podcast_url,
         ((List.range' 1 (n - 1)).map fun k => mp3PageRecs (docs k)).flatten,
         CACHE_TTL_24H)]) := by
  have h := getMp3LinksLoop_partial fetch (stripPageSuffix podcast_url) docs
    (n - 1) fuel 1 [] (by omega)
    (fun k hk1 hk2 => hok k hk1 (by omega))
    (by rw [(by omega : 1 + (n - 1) = n)]; exact hfail)
  unfold scrape_podcast_episodes_task get_mp3_links
  simp only [Option.getD] at h ⊢
  rw [h]
  simp

/-- Claim C4, witness: a page-1 fetch failure makes the job succeed with
empty accumulated data. -/
theorem c4_amended_witness :
    scrape_podcast_episodes_task (fun _ => none) ("y.html") 1 =
      (JobOutcome.succeeded [], [("episodes_view_y.html", [], CACHE_TTL_24H)]) := by
  have h := c4_amended_thm (fun _ => none) ("y.html") (fun _ => {}) 1 1 le_rfl
    le_rfl (fun k hk1 hk2 => absurd (lt_of_le_of_lt hk1 hk2) (lt_irrefl 1)) rfl
  simpa using h

/-- Claim C5, counterexample: the queries `Foo` and `foo` are equal after the
lower-casing normalization, and indeed share the cache key, but the
job-registry key is built from the raw query, so their registry keys
differ. -/
theorem c5_counterexample :
    search_view_cache_key ("Foo") = search_view_cache_key ("foo") ∧
    search_task_key ("Foo") ≠ search_task_key ("foo") := by
  decide

/-- Claim C5, amended: queries equal after normalization share the cache key,
and the task's cache-write key is computed by the same normalization as the
view's cache-read key — but the job-registry key is built from the raw query
and is not normalized. -/
theorem c5_amended_thm (q1 q2 : String)
    (h : pyReplaceSpaceUnderscore (pyLower q1) =
      pyReplaceSpaceUnderscore (pyLower q2)) :
    search_view_cache_key q1 = search_view_cache_key q2 ∧
    search_task_cache_key q1 = search_view_cache_key q1 ∧
    search_task_cache_key q2 = search_view_cache_key q2 := by
  refine ⟨?_, rfl, rfl⟩
  unfold search_view_cache_key
  rw [h]

/-- Claim C5, witness: the amended theorem applied to `Foo` and `foo`. -/
theorem c5_amended_witness :
    search_view_cache_key ("Foo") = search_view_cache_key ("foo") ∧
    search_task_cache_key ("Foo") = search_view_cache_key ("Foo") ∧
    search_task_cache_key ("foo") = search_view_cache_key ("foo") :=
  c5_amended_thm ("Foo") ("foo") (by decide)

/-- Claim C6, counterexample: a page whose second episode link has no
thumbnail at its index makes the audio-link extractor abort the entire page
(no records at all, and the enclosing job fails), instead of discarding only
the malformed node; the same first link alone extracts fine. -/
theorem c6_counterexample :
    extractMp3Page c6badPage = none ∧
    extractMp3Page { links := [c6link1], thumbs := [c6thumb] } =
      some [{ title := "E1",
              mp3_url := "https://www.ivoox.com/listen_mn_11_1.mp3",
              thumbnail := "t1" }] ∧
    (scrape_podcast_episodes_task c6fetch ("p_1.html") 3).1 =
      JobOutcome.failed := by
  refine ⟨by decide, by decide, by decide⟩

/-- Claim C6, amended: the podcast and episode extractors discard exactly the
malformed node and keep extracting the rest of the page; the audio-link
extractor, however, pairs links and thumbnails by index and aborts the whole
page with an error (failing the job) as soon as a link lacks a thumbnail at
its index, succeeding only when every link has one. -/
theorem c6_amended_thm :
    (∀ (pre post : List PodcastNode) (bad : PodcastNode),
      parsePodcastNode bad = none →
      parsePodcastNodes (pre ++ bad :: post) = parsePodcastNodes (pre ++ post)) ∧
    (∀ (pre post : List EpisodeNode) (bad : EpisodeNode),
      parseEpisodeNode bad = none →
      parseEpisodeNodes (pre ++ bad :: post) = parseEpisodeNodes (pre ++ post)) ∧
    (∀ p : Mp3Page, p.links.length ≤ p.thumbs.length →
      extractMp3Page p = some (mp3PageRecs p)) ∧
    (∀ p : Mp3Page, p.thumbs.length < p.links.length →
      extractMp3Page p = none) := by
  refine ⟨?_, ?_, ?_, ?_⟩
  · intro pre post bad h
    simp [parsePodcastNodes, List.filterMap_append, List.filterMap_cons, h]
  · intro pre post bad h
    simp [parseEpisodeNodes, List.filterMap_append, List.filterMap_cons, h]
  · intro p h
    unfold extractMp3Page
    rw [if_neg (by omega)]
  · intro p h
    unfold extractMp3Page
    rw [if_pos h]

/-- Claim C6, witness: the amended theorem applied to concrete malformed
nodes and pages. -/
theorem c6_amended_witness :
    parsePodcastNodes ([fixtureNode ("X1")] ++ ({} : PodcastNode) :: []) =
      parsePodcastNodes ([fixtureNode ("X1")] ++ []) ∧
    parseEpisodeNodes ([] ++ ({} : EpisodeNode) :: []) =
      parseEpisodeNodes ([] ++ []) ∧
    extractMp3Page ({} : Mp3Page) = some (mp3PageRecs ({} : Mp3Page)) ∧
    extractMp3Page { links := [c6link1], thumbs := [] } = none :=
  ⟨c6_amended_thm.1 [fixtureNode ("X1")] [] {} rfl,
   c6_amended_thm.2.1 [] [] {} rfl,
   c6_amended_thm.2.2.1 {} (by decide),
   c6_amended_thm.2.2.2 { links := [c6link1], thumbs := [] } (by decide)⟩

/-- Claim C7: when the run starts at page 1 and the podcast name cannot be
extracted from the fetched page-1 document, `search_episodes` stops after
that single fetch and returns an empty name and no episodes. -/
theorem c7_thm (fetch : String → Option EpisodeDoc) (podcast_id : String)
    (page : Option Nat) (d : EpisodeDoc) (fuel : Nat)
    (hp : page = none ∨ page = some 1)
    (hf : fetch (episodeUrl podcast_id 1) = some d)
    (hname : extract_podcast_name d = "") :
    search_episodes fetch podcast_id page (fuel + 1) =
      ([episodeUrl podcast_id 1], "", []) := by
  have hd : page.getD 1 = 1 := by rcases hp with h | h <;> simp [h]
  unfold search_episodes
  rw [hd]
  simp only [searchEpisodesLoop, hf]
  simp [hname]

/-- Claim C7, witness: a document with no title node aborts the listing after
one fetch. -/
theorem c7_witness :
    search_episodes c7fetch ("pid") none 1 =
      ([episodeUrl ("pid") 1], "", []) :=
  c7_thm c7fetch ("pid") none c7doc 0 (Or.inl rfl) rfl rfl

/-- Claim C8: under the no-nodes stop condition, pages of 3, 2 and 0 podcast
nodes give exactly 3 fetches and the 5 records in page-then-node order; and
in general the returned records are the concatenation, in fetch order, of
each fetched page's parses. -/
theorem c8_thm :
    ((search_podcast c8fetch ("q") none 10).1.length = 3 ∧
      (search_podcast c8fetch ("q") none 10).2 =
        [fixturePodcast ("X1"), fixturePodcast ("X2"), fixturePodcast ("X3"),
         fixturePodcast ("X4"), fixturePodcast ("X5")]) ∧
    ∀ (fetch : String → Option (List PodcastNode)) (query : String)
      (page : Option Nat) (fuel : Nat),
      (search_podcast fetch query page fuel).2 =
        ((search_podcast fetch query page fuel).1.map fun u =>
          match fetch u with
          | none => []
          | some d => parsePodcastNodes d).flatten := by
  refine ⟨⟨by decide, by decide⟩, ?_⟩
  intro fetch query page fuel
  exact searchPodcastLoop_eq_flatten fetch query fuel (page.getD 1)

/-- Claim C9: each data endpoint called without its required parameter
returns HTTP 400 and performs no effect at all — no cache read, no cache
write, no delete, no scheduled job. -/
theorem c9_thm :
    ∀ (b : Backend) (freshId : String),
      (searchDataView_get b none freshId).1.status = 400 ∧
      (searchDataView_get b none freshId).2 = ({} : Effects) ∧
      (episodeDataView_get b none freshId).1.status = 400 ∧
      (episodeDataView_get b none freshId).2 = ({} : Effects) ∧
      (taskStatusView_get b none).1.status = 400 ∧
      (taskStatusView_get b none).2 = ({} : Effects) := by
  intro b freshId
  exact ⟨rfl, rfl, rfl, rfl, rfl, rfl⟩

/-- Claim C10: the name `search_episodes` returns is the stripped text of the
first title node of the first successfully fetched page — set once, never
overwritten by later pages — and is empty exactly when the first fetch fails
or that page has no title. -/
theorem c10_thm (fetch : String → Option EpisodeDoc) (podcast_id : String)
    (page : Option Nat) (fuel : Nat) :
    (search_episodes fetch podcast_id page (fuel + 1)).2.1 =
      match fetch (episodeUrl podcast_id (page.getD 1)) with
      | none => ""
      | some d => extract_podcast_name d := by
  unfold search_episodes
  cases page with
  | none =>
    exact searchEpisodesLoop_first_name fetch podcast_id false fuel 1
      (fun h => absurd rfl h)
  | some p =>
    exact searchEpisodesLoop_first_name fetch podcast_id true fuel p
      (fun _ => rfl)
